import Mathlib

/-!
Verification development for the exhibition-app HTTP relay server
(Express server.js: device-pairing session registry, upload ingestion,
AI generation pipeline, gallery listing and sized download).

The definitions below are a shallow embedding of the final revision of
`server.js` (the revision with the gallery-list and sized-download
routes); where an earlier revision differs in a way a claim depends on,
the fragment of the earlier revision is embedded under its own name
(see the catch-classifier for the revision whose catch has a dedicated
download-failure branch).

Machine-level conventions of the embedding:
  * JS objects used as string-keyed maps become association lists with
    an overwrite-style setter and a delete that drops every binding of
    the key (`alookup` / `aset` / `aremove`).
  * Template-literal interpolation of a possibly-undefined body field is
    `jsToString`, which renders a missing field as the string
    "undefined", exactly as JS does.
  * The external OpenAI calls, the fetch of the result URL and the
    filesystem reads are suspension points; their outcomes are supplied
    by a `World` record, and the pipeline records which external calls
    and file reads it actually performed, so that claims about calls
    never being attempted are statable.
-/

/-- A value stored for a pairing session: `waiting`, or `uploaded` with
the file reference recorded by the mobile upload handler. -/
structure FileRef where
  filePath : String
  originalName : String
  fileName : String
deriving DecidableEq, Repr

/-- Session state, from the `activeSessions` object:
`{status: waiting}` or `{status: uploaded, filePath, originalName, fileName}`. -/
inductive SessionState where
  | waiting
  | uploaded (f : FileRef)
deriving DecidableEq, Repr

/-- The `activeSessions` object, as an association list keyed by session id. -/
def Registry : Type := List (String × SessionState)

/-- Property read `obj[key]` on a string-keyed JS object. -/
def alookup {α : Type} : List (String × α) → String → Option α
  | [], _ => none
  | (k, v) :: rest, key => if k = key then some v else alookup rest key

/-- Property delete `delete obj[key]`: drop every binding of `key`. -/
def aremove {α : Type} : List (String × α) → String → List (String × α)
  | [], _ => []
  | (k, v) :: rest, key =>
      if k = key then aremove rest key else (k, v) :: aremove rest key

/-- Property write `obj[key] = v` (observationally: newest binding wins). -/
def aset {α : Type} (l : List (String × α)) (key : String) (v : α) :
    List (String × α) :=
  (key, v) :: aremove l key

/-- The uploads directory `images/uploads` (UPLOADS_PATH relative to the
server root). -/
def uploadsDir : String := "images/uploads"

/-- A multipart file as multer delivers it to the handler: multer has
already written it to disk under `uploadsDir` with a generated unique
name (uuid + original extension); the original client name is kept as
metadata. -/
structure IncomingFile where
  storedName : String
  originalName : String
deriving DecidableEq, Repr

/-- The file reference the mobile upload handler stores in the session:
`filePath = req.file.path`, `originalName = req.file.originalname`,
`fileName = path.basename(req.file.path)`. -/
def mkFileRef (f : IncomingFile) : FileRef :=
  { filePath := uploadsDir ++ "/" ++ f.storedName
    originalName := f.originalName
    fileName := f.storedName }

/-- Outcome of `POST /api/mobile-upload/:sessionId`:
404 unknown session, 400 no file, or the success page. -/
inductive UploadResp where
  | sessionNotFound
  | noFile
  | success
deriving DecidableEq, Repr

/-- The mobile-upload handler body (after the multer middleware):
404 if the session id is absent, 400 if no file arrived, otherwise
overwrite the session with `{status: uploaded, ...}`. -/
def mobileUploadHandler (reg : Registry) (sid : String)
    (file : Option IncomingFile) : UploadResp × Registry :=
  match alookup reg sid with
  | none => (UploadResp.sessionNotFound, reg)
  | some _ =>
    match file with
    | none => (UploadResp.noFile, reg)
    | some f =>
        (UploadResp.success, aset reg sid (SessionState.uploaded (mkFileRef f)))

/-- The whole `POST /api/mobile-upload/:sessionId` route: the
`upload.single` multer middleware persists the incoming file into the
uploads directory (modelled as the list of stored names) before the
handler runs, then the handler body executes. -/
def mobileUploadRoute (reg : Registry) (uploads : List String) (sid : String)
    (file : Option IncomingFile) : UploadResp × Registry × List String :=
  let uploads2 :=
    match file with
    | some f => f.storedName :: uploads
    | none => uploads
  let hr := mobileUploadHandler reg sid file
  (hr.1, hr.2, uploads2)

/-- Result of `GET /api/check-upload-status/:sessionId`:
`notFound` is the 404 `{status: error, message: 세션 만료}` response,
`waiting` is `{status: waiting}`, and `uploaded f` is
`{status: uploaded, fileInfo}` carrying the file reference. -/
inductive PollResult where
  | notFound
  | waiting
  | uploaded (f : FileRef)
deriving DecidableEq, Repr

/-- The check-upload-status handler: 404 when the session id is absent;
when the session is `uploaded` it returns the file info and deletes the
session; otherwise it reports `waiting`. -/
def checkUploadStatus (reg : Registry) (sid : String) : PollResult × Registry :=
  match alookup reg sid with
  | none => (PollResult.notFound, reg)
  | some SessionState.waiting => (PollResult.waiting, reg)
  | some (SessionState.uploaded f) => (PollResult.uploaded f, aremove reg sid)

/-- Repeated polling: `n + 1` successive polls of the same session id,
returning the response of the last poll together with the registry it
leaves behind. -/
def pollRepeat (sid : String) : Nat → Registry → PollResult × Registry
  | 0, reg => checkUploadStatus reg sid
  | n + 1, reg => pollRepeat sid n (checkUploadStatus reg sid).2

/-- The destructured body of `POST /api/ai-process`
(`{prompt, style, mode, qrUploadedFileName} = req.body`); a field the
client did not send is `none` (JS `undefined`). -/
structure AiBody where
  prompt : Option String
  style : Option String
  mode : Option String
  qrUploadedFileName : Option String
deriving DecidableEq, Repr

/-- JS template-literal rendering of a possibly-undefined string field:
an absent field prints as the literal string "undefined". -/
def jsToString : Option String → String
  | none => "undefined"
  | some s => s

/-- JS truthiness of a possibly-undefined string (undefined and the
empty string are falsy). -/
def truthy : Option String → Bool
  | none => false
  | some s => !s.isEmpty

/-- A thrown JS error as the catch block discriminates it: either an
OpenAI error carrying the `content_policy_violation` code, or a plain
`Error` with a message. -/
inductive JsError where
  | policy (msg : String)
  | err (msg : String)
deriving DecidableEq, Repr

/-- Reads `error.message`. -/
def jsMessage : JsError → String
  | JsError.policy m => m
  | JsError.err m => m

/-- Whether the error carries the `content_policy_violation` code. -/
def isPolicy : JsError → Bool
  | JsError.policy _ => true
  | JsError.err _ => false

/-- Tests whether the character list `p` is an initial segment of `l`. -/
def leadsWith : List Char → List Char → Bool
  | [], _ => true
  | _ :: _, [] => false
  | c :: cs, d :: ds => c = d && leadsWith cs ds

/-- Tests whether the character list `p` occurs contiguously in `l`. -/
def occursIn (p : List Char) : List Char → Bool
  | [] => leadsWith p []
  | c :: cs => leadsWith p (c :: cs) || occursIn p cs

/-- Substring containment, as `String.prototype.includes`. -/
def strIncludes (s pat : String) : Bool := occursIn pat.data s.data

/-- 400 message of the mode/input validation. -/
def validationMsg : String := "필수 입력 데이터가 부족하거나 모드가 일치하지 않습니다."

/-- Generic 500 message of the catch block. -/
def genericMsg : String := "AI 이미지 생성에 실패했습니다. (서버 오류)"

/-- Curated content-policy message of the catch block (final revision). -/
def policyMsgP3 : String := "⚠️ 콘텐츠 정책 위반: 입력하신 내용이나 분석된 이미지에 부적절한 내용이 포함되어 거부되었습니다. 원본 이미지나 프롬프트 내용을 확인해주세요."

/-- Curated input-file message of the catch block (final revision). -/
def fileMsgP3 : String := "원본 이미지 처리 중 오류가 발생했습니다. 유효한 이미지 파일을 업로드했는지 확인해주세요."

/-- Curated content-policy message of the catch block (server.js revision). -/
def policyMsgSjs : String := "⚠️ 콘텐츠 정책 위반: 입력하신 내용이 OpenAI의 안전 시스템에 의해 거부되었습니다. 프롬프트 내용을 구체적이고 안전하게 수정해주세요."

/-- Curated download-failure message of the catch block (server.js revision). -/
def downloadMsgSjs : String := "AI 이미지를 다운로드하는 데 실패했습니다. 다시 시도해 주세요."

/-- Curated input-file message of the catch block (server.js revision). -/
def fileMsgSjs : String := "원본 이미지 처리 중 오류가 발생했습니다. 유효한 이미지 파일을 업로드했는지 확인해주세요."

/-- Message pattern tested by `includes` for a download failure. -/
def patDownload : String := "Failed to download image from OpenAI URL"

/-- Message pattern tested by `includes` for a missing input file. -/
def patFileNotFound : String := "파일을 찾을 수 없습니다"

/-- Message pattern tested by `includes` for a base64 encoding failure. -/
def patBase64 : String := "파일을 Base64로 인코딩할 수 없습니다"

/-- Catch-block message selection of the final revision
(policy code, then missing-input-file pattern, else generic; this
revision has no dedicated download-failure branch). -/
def classifyErrorP3 (e : JsError) : String :=
  if isPolicy e then policyMsgP3
  else if strIncludes (jsMessage e) patFileNotFound then fileMsgP3
  else genericMsg

/-- Catch-block message selection of the server.js revision
(policy code, then download-failure pattern, then input-file patterns,
else generic). -/
def classifyErrorSjs (e : JsError) : String :=
  if isPolicy e then policyMsgSjs
  else if strIncludes (jsMessage e) patDownload then downloadMsgSjs
  else if strIncludes (jsMessage e) patFileNotFound
          || strIncludes (jsMessage e) patBase64 then fileMsgSjs
  else genericMsg

/-- The message of the error thrown when `fetch(imageUrl)` responds
non-ok: `Failed to download image from OpenAI URL: statusText. Status: n`. -/
def downloadErrMsg (statusText : String) (statusCode : Nat) : String :=
  "Failed to download image from OpenAI URL: " ++ statusText
    ++ ". Status: " ++ toString statusCode

/-- Input resolution of the ai-process handler: 400, no input image
(text mode), or an input image path. -/
inductive ResolvedInput where
  | invalid
  | noImage
  | image (p : String)
deriving DecidableEq, Repr

/-- The if-chain at the top of the ai-process handler: PC-upload image
mode needs `req.file`; qr mode needs a truthy `qrUploadedFileName` and
resolves it inside the uploads directory; text mode needs nothing; any
other combination is a 400. -/
def resolveInput (body : AiBody) (file : Option IncomingFile) : ResolvedInput :=
  if body.mode = some "image" ∧ file.isSome then
    ResolvedInput.image (uploadsDir ++ "/" ++
      (match file with
       | some f => f.storedName
       | none => ""))
  else if body.mode = some "qr" ∧ truthy body.qrUploadedFileName then
    ResolvedInput.image (uploadsDir ++ "/" ++ jsToString body.qrUploadedFileName)
  else if body.mode = some "text" then ResolvedInput.noImage
  else ResolvedInput.invalid

/-- Externally observable calls of one ai-process request: the vision
(description) call, the image-generation call with the composed prompt,
and the fetch of the result URL. -/
inductive ExtCall where
  | vision (imagePath : String)
  | generate (finalPrompt : String)
  | fetchUrl (url : String)
deriving DecidableEq, Repr

/-- Outcomes of the suspension points of one request: the input-file
read (`imageToBase64`), the vision call, the generation call, and the
result fetch; plus the generated unique token for the result filename. -/
structure World where
  readOk : Bool
  readErrMsg : String
  visionOutcome : Except JsError String
  generateOutcome : Except JsError String
  fetchOk : Bool
  fetchStatusText : String
  fetchStatus : Nat
  fetchBytes : List Nat
  resultUuid : String
deriving Repr

/-- The JSON response of the ai-process route. -/
structure AiResponse where
  status : Nat
  aiImageUrl : Option String
  errorField : Option String
  details : Option String
deriving DecidableEq, Repr

/-- Response of one ai-process request together with its side effects:
external calls made, files written into the images root, input files read. -/
structure AiTrace where
  resp : AiResponse
  calls : List ExtCall
  written : List (String × List Nat)
  fileReads : List String
deriving DecidableEq, Repr

/-- The catch block of the final revision: 500 with the selected
curated message and `details = error.message`; nothing was written. -/
def catchResponse (e : JsError) (calls : List ExtCall) (reads : List String) :
    AiTrace :=
  { resp := { status := 500, aiImageUrl := none
              errorField := some (classifyErrorP3 e)
              details := some (jsMessage e) }
    calls := calls, written := [], fileReads := reads }

/-- Text-mode final prompt: `basePrompt in style style. Highly detailed
and cinematic quality.` with JS interpolation of the two body fields. -/
def textFinalPrompt (prompt style : Option String) : String :=
  jsToString prompt ++ " in " ++ jsToString style ++
    " style. Highly detailed and cinematic quality."

/-- Image/qr-mode reassigned base prompt combining the vision
description with the user prompt. -/
def imageBasePrompt (vd : String) (prompt : Option String) : String :=
  "TRANSFORM this image structure: (" ++ vd ++ "). User\x27s style request: "
    ++ jsToString prompt

/-- Image/qr-mode final prompt template. -/
def imageFinalPrompt (vd : String) (style prompt : Option String) : String :=
  "Based on the content described: \"" ++ vd ++ "\". "
    ++ "The user wants to transform this exact composition into the requested style. "
    ++ "Maintain the subject\x27s pose, the overall composition, and the color scheme. "
    ++ "Style: " ++ jsToString style ++ ". User refinement: "
    ++ imageBasePrompt vd prompt ++ ". Highly detailed, photorealistic quality."

/-- Fetch of the generated image URL followed by persisting the bytes
under `ai_result_<uuid>.png` in the images root; a non-ok fetch throws
the download error into the catch block. -/
def fetchAndPersist (w : World) (calls : List ExtCall) (reads : List String)
    (url : String) : AiTrace :=
  let calls2 := calls ++ [ExtCall.fetchUrl url]
  if w.fetchOk then
    let name := "ai_result_" ++ w.resultUuid ++ ".png"
    { resp := { status := 200, aiImageUrl := some ("/images/" ++ name)
                errorField := none, details := none }
      calls := calls2, written := [(name, w.fetchBytes)], fileReads := reads }
  else
    catchResponse (JsError.err (downloadErrMsg w.fetchStatusText w.fetchStatus))
      calls2 reads

/-- The DALL-E generation stage: the call is made with the composed
final prompt; a thrown error goes to the catch block, a returned URL
goes to fetch-and-persist. -/
def generateStage (w : World) (finalPrompt : String) (calls : List ExtCall)
    (reads : List String) : AiTrace :=
  let calls2 := calls ++ [ExtCall.generate finalPrompt]
  match w.generateOutcome with
  | Except.error e => catchResponse e calls2 reads
  | Except.ok url => fetchAndPersist w calls2 reads url

/-- The whole `POST /api/ai-process` handler of the final revision:
input resolution (400 on mismatch), the conditional vision step for
image/qr mode (file read, then vision call, then prompt reassembly),
prompt composition, generation, fetch and persist, with every thrown
error landing in the catch block. -/
def aiProcess (body : AiBody) (file : Option IncomingFile) (w : World) :
    AiTrace :=
  match resolveInput body file with
  | ResolvedInput.invalid =>
    { resp := { status := 400, aiImageUrl := none
                errorField := some validationMsg, details := none }
      calls := [], written := [], fileReads := [] }
  | ResolvedInput.noImage =>
    generateStage w (textFinalPrompt body.prompt body.style) [] []
  | ResolvedInput.image p =>
    if w.readOk then
      match w.visionOutcome with
      | Except.error e => catchResponse e [ExtCall.vision p] [p]
      | Except.ok vd =>
          generateStage w (imageFinalPrompt vd body.style body.prompt)
            [ExtCall.vision p] [p]
    else catchResponse (JsError.err w.readErrMsg) [] [p]

/-- A stored image file in the images root: pixel dimensions plus raw
content bytes. -/
structure StoredImage where
  width : Nat
  height : Nat
  bytes : List Nat
deriving DecidableEq, Repr

/-- The dimensions sharp produces for
`.resize(t, t, {fit: inside, withoutEnlargement: true})`: an image
already inside the `t × t` box is left alone, otherwise it is scaled
down proportionally so that its larger side becomes `t`.  (Model of the
documented resize semantics of the external sharp library.) -/
def fitInside (t w h : Nat) : Nat × Nat :=
  if w ≤ t ∧ h ≤ t then (w, h)
  else if h ≤ w then (t, h * t / w)
  else (w * t / h, t)

/-- Response of `GET /api/download/:filename`: 404, a freshly re-encoded
PNG with the given dimensions, or the stored original streamed verbatim. -/
inductive DownloadResult where
  | notFound
  | resized (w h : Nat)
  | original (img : StoredImage)
deriving DecidableEq, Repr

/-- The download handler of the final revision: 404 if the file is
absent; `size=small` selects target width 512 and `size=medium` 1024;
the resize branch runs only when a target width was selected AND it is
not 1024 (`resizeWidth && resizeWidth !== 1024`); every other case
streams the stored original. -/
def downloadHandler (fs : List (String × StoredImage)) (filename : String)
    (size : Option String) : DownloadResult :=
  match alookup fs filename with
  | none => DownloadResult.notFound
  | some img =>
    let resizeWidth : Option Nat :=
      if size = some "small" then some 512
      else if size = some "medium" then some 1024
      else none
    match resizeWidth with
    | some t =>
      if t ≠ 1024 then
        DownloadResult.resized (fitInside t img.width img.height).1
          (fitInside t img.width img.height).2
      else DownloadResult.original img
    | none => DownloadResult.original img

/-- Width of the image a download response carries (404 counts as width 0). -/
def resultWidth : DownloadResult → Nat
  | DownloadResult.notFound => 0
  | DownloadResult.resized w _ => w
  | DownloadResult.original img => img.width

/-- A directory entry of the images root as gallery listing sees it:
name and stat timestamp in milliseconds. -/
structure GalleryFile where
  name : String
  mtimeMs : Nat
deriving DecidableEq, Repr

/-- Model of `String.prototype.startsWith`. -/
def strStartsWith (s p : String) : Bool := leadsWith p.data s.data

/-- Model of `String.prototype.endsWith`. -/
def strEndsWith (s p : String) : Bool := leadsWith p.data.reverse s.data.reverse

/-- The gallery filter:
`file.startsWith(ai_result_) && (file.endsWith(.png) || file.endsWith(.jpg))`. -/
def isGalleryName (s : String) : Bool :=
  strStartsWith s "ai_result_" && (strEndsWith s ".png" || strEndsWith s ".jpg")

/-- One entry of the gallery-list response. -/
structure GalleryItem where
  url : String
  filename : String
  timestamp : Nat
deriving DecidableEq, Repr

/-- The per-file mapping of gallery listing:
`{url: /images/file, filename: file, timestamp: mtimeMs}`. -/
def toItem (f : GalleryFile) : GalleryItem :=
  { url := "/images/" ++ f.name, filename := f.name, timestamp := f.mtimeMs }

/-- Insertion step for sorting with comparator
`(a, b) => b.timestamp - a.timestamp` (larger timestamps first). -/
def insertDesc (x : GalleryItem) : List GalleryItem → List GalleryItem
  | [] => [x]
  | y :: ys =>
      if y.timestamp < x.timestamp then x :: y :: ys else y :: insertDesc x ys

/-- Sort newest-first with the comparator above.  (On pairwise distinct
timestamps every comparison sort agrees, so this insertion sort embeds
the JS `Array.prototype.sort` call.) -/
def sortDesc : List GalleryItem → List GalleryItem
  | [] => []
  | x :: xs => insertDesc x (sortDesc xs)

/-- The gallery-list route: filter the images root to generated-result
names, map each to its item, sort newest-first. -/
def galleryList (files : List GalleryFile) : List GalleryItem :=
  sortDesc ((files.filter (fun f => isGalleryName f.name)).map toItem)

theorem alookup_aremove {α : Type} (l : List (String × α)) (key : String) :
    alookup (aremove l key) key = none := by
  induction l with
  | nil => rfl
  | cons p rest ih =>
    obtain ⟨k, v⟩ := p
    by_cases h : k = key
    · simpa [aremove, h] using ih
    · simpa [aremove, alookup, h] using ih

theorem alookup_aset {α : Type} (l : List (String × α)) (key : String) (v : α) :
    alookup (aset l key v) key = some v := by
  simp [aset, alookup]

theorem checkUploadStatus_absent (reg : Registry) (sid : String)
    (h : alookup reg sid = none) :
    checkUploadStatus reg sid = (PollResult.notFound, reg) := by
  unfold checkUploadStatus
  rw [h]

theorem pollRepeat_absent (sid : String) (reg : Registry)
    (h : alookup reg sid = none) :
    ∀ n, pollRepeat sid n reg = (PollResult.notFound, reg) := by
  intro n
  induction n with
  | zero => simpa [pollRepeat] using checkUploadStatus_absent reg sid h
  | succ n ih => simp [pollRepeat, checkUploadStatus_absent reg sid h, ih]

/-- C1: when a session holds a successful mobile upload, the next
check-upload-status call returns `uploaded` with the file reference and
removes the session from the registry, and every later
check-upload-status call on the same identifier (any number of polls
later) returns the 404 session-not-found result. -/
theorem claim_C1_poll_consume (reg : Registry) (sid : String) (f : FileRef)
    (h : alookup reg sid = some (SessionState.uploaded f)) :
    (checkUploadStatus reg sid).1 = PollResult.uploaded f
    ∧ alookup (checkUploadStatus reg sid).2 sid = none
    ∧ ∀ n, (pollRepeat sid n (checkUploadStatus reg sid).2).1 = PollResult.notFound := by
  have hstep : checkUploadStatus reg sid = (PollResult.uploaded f, aremove reg sid) := by
    unfold checkUploadStatus
    rw [h]
  refine ⟨by rw [hstep], by rw [hstep]; exact alookup_aremove reg sid, ?_⟩
  intro n
  rw [hstep]
  simp [pollRepeat_absent sid (aremove reg sid) (alookup_aremove reg sid) n]

/-- Witness for C1 at a concrete registry holding one uploaded session. -/
theorem claim_C1_witness :
    (checkUploadStatus [("s1", SessionState.uploaded ⟨"images/uploads/u.jpg", "o.jpg", "u.jpg"⟩)] "s1").1
      = PollResult.uploaded ⟨"images/uploads/u.jpg", "o.jpg", "u.jpg"⟩
    ∧ alookup (checkUploadStatus [("s1", SessionState.uploaded ⟨"images/uploads/u.jpg", "o.jpg", "u.jpg"⟩)] "s1").2 "s1" = none
    ∧ ∀ n, (pollRepeat "s1" n
        (checkUploadStatus [("s1", SessionState.uploaded ⟨"images/uploads/u.jpg", "o.jpg", "u.jpg"⟩)] "s1").2).1
        = PollResult.notFound :=
  claim_C1_poll_consume
    [("s1", SessionState.uploaded ⟨"images/uploads/u.jpg", "o.jpg", "u.jpg"⟩)]
    "s1" ⟨"images/uploads/u.jpg", "o.jpg", "u.jpg"⟩ (by decide)

/-- C2 counterexample: a session that already holds an uploaded file
reference is overwritten by a second successful mobile-upload before
any consumption: after uploading u1.jpg and then u2.jpg to the same
session, the registry holds the reference of u2.jpg, which differs from
the reference of u1.jpg. -/
theorem claim_C2_counterexample :
    (mobileUploadHandler
        (mobileUploadHandler [("s1", SessionState.waiting)] "s1"
          (some ⟨"u1.jpg", "o1.jpg"⟩)).2
        "s1" (some ⟨"u2.jpg", "o2.jpg"⟩)).1 = UploadResp.success
    ∧ alookup (mobileUploadHandler
        (mobileUploadHandler [("s1", SessionState.waiting)] "s1"
          (some ⟨"u1.jpg", "o1.jpg"⟩)).2
        "s1" (some ⟨"u2.jpg", "o2.jpg"⟩)).2 "s1"
        = some (SessionState.uploaded (mkFileRef ⟨"u2.jpg", "o2.jpg"⟩))
    ∧ mkFileRef ⟨"u2.jpg", "o2.jpg"⟩ ≠ mkFileRef ⟨"u1.jpg", "o1.jpg"⟩ := by
  decide

/-- C2 amended: the handler overwrites unconditionally, so the file
reference stored in a session always reflects the most recent
successful mobile-upload; a later upload before consumption replaces
the earlier reference rather than being rejected. -/
theorem claim_C2_last_upload_wins (reg : Registry) (sid : String)
    (st : SessionState) (f : IncomingFile)
    (h : alookup reg sid = some st) :
    (mobileUploadHandler reg sid (some f)).1 = UploadResp.success
    ∧ alookup (mobileUploadHandler reg sid (some f)).2 sid
        = some (SessionState.uploaded (mkFileRef f)) := by
  unfold mobileUploadHandler
  rw [h]
  exact ⟨rfl, alookup_aset reg sid _⟩

/-- Witness for the amended C2 at a concrete already-uploaded session. -/
theorem claim_C2_witness :
    (mobileUploadHandler [("s1", SessionState.uploaded (mkFileRef ⟨"u1.jpg", "o1.jpg"⟩))] "s1"
        (some ⟨"u2.jpg", "o2.jpg"⟩)).1 = UploadResp.success
    ∧ alookup (mobileUploadHandler [("s1", SessionState.uploaded (mkFileRef ⟨"u1.jpg", "o1.jpg"⟩))] "s1"
        (some ⟨"u2.jpg", "o2.jpg"⟩)).2 "s1"
        = some (SessionState.uploaded (mkFileRef ⟨"u2.jpg", "o2.jpg"⟩)) :=
  claim_C2_last_upload_wins
    [("s1", SessionState.uploaded (mkFileRef ⟨"u1.jpg", "o1.jpg"⟩))]
    "s1" (SessionState.uploaded (mkFileRef ⟨"u1.jpg", "o1.jpg"⟩))
    ⟨"u2.jpg", "o2.jpg"⟩ (by decide)

theorem leadsWith_append (xs ys : List Char) : leadsWith xs (xs ++ ys) = true := by
  induction xs with
  | nil => rfl
  | cons c cs ih => simp [leadsWith, ih]

theorem occursIn_of_leadsWith (p l : List Char) (h : leadsWith p l = true) :
    occursIn p l = true := by
  cases l with
  | nil => simpa [occursIn] using h
  | cons c cs => simp [occursIn, h]

/-- The thrown download-failure message always contains the pattern the
server.js catch block tests with `includes`. -/
theorem downloadErrMsg_includes (st : String) (c : Nat) :
    strIncludes (downloadErrMsg st c) patDownload = true := by
  have hd : (downloadErrMsg st c).data
      = patDownload.data
        ++ ((": " : String).data ++ st.data
              ++ (". Status: " : String).data ++ (toString c).data) := by
    simp [downloadErrMsg, String.data_append, patDownload]
  unfold strIncludes
  rw [hd]
  exact occursIn_of_leadsWith _ _ (leadsWith_append _ _)

/-- C6: whenever the fetch of the generation result URL does not
succeed, the request ends in the catch block: HTTP 500, no aiImageUrl
returned, nothing written into the images root, and the thrown message
is the download-failure message, which the server.js catch branch maps
to the curated download-failure text — distinct from both the generic
failure message and the policy-violation message. -/
theorem claim_C6_download_failure (body : AiBody) (file : Option IncomingFile)
    (w : World) (url vd : String)
    (hres : resolveInput body file ≠ ResolvedInput.invalid)
    (hread : w.readOk = true)
    (hvis : w.visionOutcome = Except.ok vd)
    (hgen : w.generateOutcome = Except.ok url)
    (hfetch : w.fetchOk = false) :
    (aiProcess body file w).resp.status = 500
    ∧ (aiProcess body file w).resp.aiImageUrl = none
    ∧ (aiProcess body file w).written = []
    ∧ (aiProcess body file w).resp.details
        = some (downloadErrMsg w.fetchStatusText w.fetchStatus)
    ∧ classifyErrorSjs (JsError.err (downloadErrMsg w.fetchStatusText w.fetchStatus))
        = downloadMsgSjs
    ∧ downloadMsgSjs ≠ genericMsg
    ∧ downloadMsgSjs ≠ policyMsgSjs := by
  have hclass : classifyErrorSjs (JsError.err (downloadErrMsg w.fetchStatusText w.fetchStatus))
      = downloadMsgSjs := by
    simp [classifyErrorSjs, isPolicy, jsMessage,
      downloadErrMsg_includes w.fetchStatusText w.fetchStatus]
  have hmain : (aiProcess body file w).resp.status = 500
      ∧ (aiProcess body file w).resp.aiImageUrl = none
      ∧ (aiProcess body file w).written = []
      ∧ (aiProcess body file w).resp.details
          = some (downloadErrMsg w.fetchStatusText w.fetchStatus) := by
    unfold aiProcess
    cases hr : resolveInput body file with
    | invalid => exact absurd hr hres
    | noImage =>
      unfold generateStage fetchAndPersist
      rw [hgen]
      simp [hfetch, catchResponse, jsMessage]
    | image p =>
      rw [hread]
      simp only [if_true]
      rw [hvis]
      unfold generateStage fetchAndPersist
      rw [hgen]
      simp [hfetch, catchResponse, jsMessage]
  exact ⟨hmain.1, hmain.2.1, hmain.2.2.1, hmain.2.2.2, hclass, by decide, by decide⟩

/-- Witness for C6 at a concrete text-mode request whose result fetch
fails with status 403. -/
theorem claim_C6_witness :
    (aiProcess ⟨some "fox", some "oil", some "text", none⟩ none
        ⟨true, "", Except.ok "d", Except.ok "http://u", false, "Forbidden", 403, [], "id"⟩).resp.status = 500
    ∧ (aiProcess ⟨some "fox", some "oil", some "text", none⟩ none
        ⟨true, "", Except.ok "d", Except.ok "http://u", false, "Forbidden", 403, [], "id"⟩).resp.aiImageUrl = none
    ∧ (aiProcess ⟨some "fox", some "oil", some "text", none⟩ none
        ⟨true, "", Except.ok "d", Except.ok "http://u", false, "Forbidden", 403, [], "id"⟩).written = []
    ∧ (aiProcess ⟨some "fox", some "oil", some "text", none⟩ none
        ⟨true, "", Except.ok "d", Except.ok "http://u", false, "Forbidden", 403, [], "id"⟩).resp.details
        = some (downloadErrMsg "Forbidden" 403)
    ∧ classifyErrorSjs (JsError.err (downloadErrMsg "Forbidden" 403)) = downloadMsgSjs
    ∧ downloadMsgSjs ≠ genericMsg
    ∧ downloadMsgSjs ≠ policyMsgSjs :=
  claim_C6_download_failure ⟨some "fox", some "oil", some "text", none⟩ none
    ⟨true, "", Except.ok "d", Except.ok "http://u", false, "Forbidden", 403, [], "id"⟩
    "http://u" "d" (by decide) rfl rfl rfl rfl

theorem mem_insertDesc (x a : GalleryItem) (l : List GalleryItem) :
    a ∈ insertDesc x l ↔ a = x ∨ a ∈ l := by
  induction l with
  | nil => simp [insertDesc]
  | cons y ys ih =>
    by_cases h : y.timestamp < x.timestamp
    · simp only [insertDesc, if_pos h, List.mem_cons]
    · simp only [insertDesc, if_neg h, List.mem_cons, ih]
      tauto

theorem insertDesc_perm (x : GalleryItem) (l : List GalleryItem) :
    List.Perm (insertDesc x l) (x :: l) := by
  induction l with
  | nil => exact List.Perm.refl _
  | cons y ys ih =>
    by_cases h : y.timestamp < x.timestamp
    · simp only [insertDesc, if_pos h]
      exact List.Perm.refl _
    · simp only [insertDesc, if_neg h]
      exact List.Perm.trans (List.Perm.cons y ih) (List.Perm.swap x y ys)

theorem sortDesc_perm (l : List GalleryItem) : List.Perm (sortDesc l) l := by
  induction l with
  | nil => exact List.Perm.refl _
  | cons x xs ih =>
    simp only [sortDesc]
    exact List.Perm.trans (insertDesc_perm x (sortDesc xs)) (List.Perm.cons x ih)

theorem insertDesc_pairwise (x : GalleryItem) (l : List GalleryItem)
    (h : l.Pairwise (fun a b => b.timestamp ≤ a.timestamp)) :
    (insertDesc x l).Pairwise (fun a b => b.timestamp ≤ a.timestamp) := by
  induction l with
  | nil => simp [insertDesc]
  | cons y ys ih =>
    rcases List.pairwise_cons.mp h with ⟨hy, hys⟩
    by_cases hc : y.timestamp < x.timestamp
    · simp only [insertDesc, if_pos hc]
      refine List.Pairwise.cons ?_ h
      intro b hb
      rcases List.mem_cons.mp hb with rfl | hb
      · exact le_of_lt hc
      · exact le_trans (hy b hb) (le_of_lt hc)
    · simp only [insertDesc, if_neg hc]
      refine List.Pairwise.cons ?_ (ih hys)
      intro b hb
      rcases (mem_insertDesc x b ys).mp hb with rfl | hb
      · exact Nat.le_of_not_lt hc
      · exact hy b hb

theorem sortDesc_pairwise (l : List GalleryItem) :
    (sortDesc l).Pairwise (fun a b => b.timestamp ≤ a.timestamp) := by
  induction l with
  | nil => simp [sortDesc]
  | cons x xs ih =>
    simp only [sortDesc]
    exact insertDesc_pairwise x (sortDesc xs) ih

/-- C8: when the generated-result files in the images root have
pairwise distinct timestamps, gallery listing returns exactly the
generated-result files (a permutation of the filtered and mapped
directory entries, each as its url/filename/timestamp item), and the
returned list is sorted in strictly descending timestamp order. -/
theorem claim_C8_gallery_exact_sorted (files : List GalleryFile)
    (h : (files.filter (fun f => isGalleryName f.name)).Pairwise
          (fun a b => a.mtimeMs ≠ b.mtimeMs)) :
    List.Perm (galleryList files)
      ((files.filter (fun f => isGalleryName f.name)).map toItem)
    ∧ (galleryList files).Pairwise (fun a b => b.timestamp < a.timestamp) := by
  have hitems : ((files.filter (fun f => isGalleryName f.name)).map toItem).Pairwise
      (fun a b => a.timestamp ≠ b.timestamp) := List.pairwise_map.mpr h
  have hperm : List.Perm (galleryList files)
      ((files.filter (fun f => isGalleryName f.name)).map toItem) := by
    simp only [galleryList]
    exact sortDesc_perm _
  have hle : (galleryList files).Pairwise (fun a b => b.timestamp ≤ a.timestamp) := by
    simp only [galleryList]
    exact sortDesc_pairwise _
  have hne : (galleryList files).Pairwise (fun a b => a.timestamp ≠ b.timestamp) :=
    (hperm.pairwise_iff (fun hab => hab.symm)).mpr hitems
  exact ⟨hperm, (hle.and hne).imp (fun hab => lt_of_le_of_ne hab.1 (Ne.symm hab.2))⟩

/-- Witness for C8 at a concrete directory with two generated files
(distinct timestamps) and one unrelated file. -/
theorem claim_C8_witness :
    List.Perm (galleryList [⟨"ai_result_a.png", 5⟩, ⟨"note.txt", 99⟩, ⟨"ai_result_b.jpg", 7⟩])
      ((([⟨"ai_result_a.png", 5⟩, ⟨"note.txt", 99⟩, ⟨"ai_result_b.jpg", 7⟩] : List GalleryFile).filter
          (fun f => isGalleryName f.name)).map toItem)
    ∧ (galleryList [⟨"ai_result_a.png", 5⟩, ⟨"note.txt", 99⟩, ⟨"ai_result_b.jpg", 7⟩]).Pairwise
        (fun a b => b.timestamp < a.timestamp) :=
  claim_C8_gallery_exact_sorted
    [⟨"ai_result_a.png", 5⟩, ⟨"note.txt", 99⟩, ⟨"ai_result_b.jpg", 7⟩] (by decide)

/-- C3 failing input: the download route serves a stored 2048 pixel
wide image verbatim when size=medium (the resize guard
`resizeWidth && resizeWidth !== 1024` routes medium into the
original-bytes branch), so the response is wider than 1024 pixels;
size=small on the same file is resized to 512 wide as intended. -/
theorem claim_C3_medium_not_resized :
    downloadHandler [("wide.png", ⟨2048, 1024, [7, 7]⟩)] "wide.png" (some "medium")
      = DownloadResult.original ⟨2048, 1024, [7, 7]⟩
    ∧ 1024 < resultWidth
        (downloadHandler [("wide.png", ⟨2048, 1024, [7, 7]⟩)] "wide.png" (some "medium"))
    ∧ downloadHandler [("wide.png", ⟨2048, 1024, [7, 7]⟩)] "wide.png" (some "small")
      = DownloadResult.resized 512 256 := by
  decide

/-- C9: a download request for a filename absent from the images root
returns the 404 response, whatever the size hint; the handler is a
total function of the store, so no unhandled exception arises. -/
theorem claim_C9_download_missing_404 (fs : List (String × StoredImage))
    (filename : String) (size : Option String)
    (h : alookup fs filename = none) :
    downloadHandler fs filename size = DownloadResult.notFound := by
  unfold downloadHandler
  rw [h]

/-- Witness for C9 at a concrete store missing the requested name. -/
theorem claim_C9_witness :
    downloadHandler [("ai_result_x.png", ⟨1024, 1024, [3]⟩)] "does-not-exist.png"
      (some "small") = DownloadResult.notFound :=
  claim_C9_download_missing_404 [("ai_result_x.png", ⟨1024, 1024, [3]⟩)]
    "does-not-exist.png" (some "small") (by decide)

/-- C10: a mobile-upload carrying a file against an unknown session id
is answered with the 404 session-not-found response and leaves the
registry untouched, yet the multer middleware has already persisted the
file in the uploads directory under its fresh generated name, so the
artifact store grows by one file even on the rejected call. -/
theorem claim_C10_upload_persists_on_404 (reg : Registry)
    (uploads : List String) (sid : String) (f : IncomingFile)
    (h1 : alookup reg sid = none) (h2 : f.storedName ∉ uploads) :
    (mobileUploadRoute reg uploads sid (some f)).1 = UploadResp.sessionNotFound
    ∧ (mobileUploadRoute reg uploads sid (some f)).2.1 = reg
    ∧ (mobileUploadRoute reg uploads sid (some f)).2.2 = f.storedName :: uploads
    ∧ f.storedName ∉ uploads
    ∧ f.storedName ∈ (mobileUploadRoute reg uploads sid (some f)).2.2
    ∧ (mobileUploadRoute reg uploads sid (some f)).2.2.length = uploads.length + 1 := by
  unfold mobileUploadRoute mobileUploadHandler
  rw [h1]
  exact ⟨rfl, rfl, rfl, h2, by simp, by simp⟩

/-- C4: an ai-process request in image mode with no attached file is
rejected by the input validation with the 400 message, whatever the
other body fields and the external world hold: no external call, no
file read and no file write happen, and no aiImageUrl is returned. -/
theorem claim_C4_image_mode_requires_file (body : AiBody) (w : World)
    (h : body.mode = some "image") :
    (aiProcess body none w).resp.status = 400
    ∧ (aiProcess body none w).resp.errorField = some validationMsg
    ∧ (aiProcess body none w).resp.aiImageUrl = none
    ∧ (aiProcess body none w).calls = []
    ∧ (aiProcess body none w).written = []
    ∧ (aiProcess body none w).fileReads = [] := by
  have hres : resolveInput body none = ResolvedInput.invalid := by
    simp [resolveInput, h]
  unfold aiProcess
  rw [hres]
  exact ⟨rfl, rfl, rfl, rfl, rfl, rfl⟩

/-- Witness for C4 at a concrete image-mode body without a file. -/
theorem claim_C4_witness :
    (aiProcess ⟨some "p", some "s", some "image", some "q.png"⟩ none
        ⟨true, "", Except.ok "d", Except.ok "u", true, "OK", 200, [1], "id"⟩).resp.status = 400
    ∧ (aiProcess ⟨some "p", some "s", some "image", some "q.png"⟩ none
        ⟨true, "", Except.ok "d", Except.ok "u", true, "OK", 200, [1], "id"⟩).resp.errorField = some validationMsg
    ∧ (aiProcess ⟨some "p", some "s", some "image", some "q.png"⟩ none
        ⟨true, "", Except.ok "d", Except.ok "u", true, "OK", 200, [1], "id"⟩).resp.aiImageUrl = none
    ∧ (aiProcess ⟨some "p", some "s", some "image", some "q.png"⟩ none
        ⟨true, "", Except.ok "d", Except.ok "u", true, "OK", 200, [1], "id"⟩).calls = []
    ∧ (aiProcess ⟨some "p", some "s", some "image", some "q.png"⟩ none
        ⟨true, "", Except.ok "d", Except.ok "u", true, "OK", 200, [1], "id"⟩).written = []
    ∧ (aiProcess ⟨some "p", some "s", some "image", some "q.png"⟩ none
        ⟨true, "", Except.ok "d", Except.ok "u", true, "OK", 200, [1], "id"⟩).fileReads = [] :=
  claim_C4_image_mode_requires_file ⟨some "p", some "s", some "image", some "q.png"⟩
    ⟨true, "", Except.ok "d", Except.ok "u", true, "OK", 200, [1], "id"⟩ rfl

/-- C5: a text-mode ai-process request reads no input file, performs no
vision (description) call, and the prompt handed to the generation
service is exactly the deterministic assembly of the user prompt and
style fields (the text-mode template), whatever file or world
accompanies the request. -/
theorem claim_C5_text_mode_prompt (body : AiBody) (file : Option IncomingFile)
    (w : World) (h : body.mode = some "text") :
    (aiProcess body file w).fileReads = []
    ∧ (∀ p, ExtCall.vision p ∉ (aiProcess body file w).calls)
    ∧ ExtCall.generate (textFinalPrompt body.prompt body.style)
        ∈ (aiProcess body file w).calls
    ∧ (∀ s, ExtCall.generate s ∈ (aiProcess body file w).calls →
        s = textFinalPrompt body.prompt body.style) := by
  have hres : resolveInput body file = ResolvedInput.noImage := by
    simp [resolveInput, h]
  unfold aiProcess
  rw [hres]
  unfold generateStage
  cases hg : w.generateOutcome with
  | error e => simp [catchResponse]
  | ok url =>
    unfold fetchAndPersist
    by_cases hf : w.fetchOk
    · simp [hf, catchResponse]
    · simp [hf, catchResponse]

/-- Witness for C5 at a concrete text-mode request. -/
theorem claim_C5_witness :
    (aiProcess ⟨some "a red fox", some "watercolor", some "text", none⟩ none
        ⟨true, "", Except.ok "d", Except.ok "u", true, "OK", 200, [1], "id"⟩).fileReads = []
    ∧ (∀ p, ExtCall.vision p ∉ (aiProcess ⟨some "a red fox", some "watercolor", some "text", none⟩ none
        ⟨true, "", Except.ok "d", Except.ok "u", true, "OK", 200, [1], "id"⟩).calls)
    ∧ ExtCall.generate (textFinalPrompt (some "a red fox") (some "watercolor"))
        ∈ (aiProcess ⟨some "a red fox", some "watercolor", some "text", none⟩ none
        ⟨true, "", Except.ok "d", Except.ok "u", true, "OK", 200, [1], "id"⟩).calls
    ∧ (∀ s, ExtCall.generate s ∈ (aiProcess ⟨some "a red fox", some "watercolor", some "text", none⟩ none
        ⟨true, "", Except.ok "d", Except.ok "u", true, "OK", 200, [1], "id"⟩).calls →
        s = textFinalPrompt (some "a red fox") (some "watercolor")) :=
  claim_C5_text_mode_prompt ⟨some "a red fox", some "watercolor", some "text", none⟩ none
    ⟨true, "", Except.ok "d", Except.ok "u", true, "OK", 200, [1], "id"⟩ rfl

/-- C7 counterexample: a text-mode request with no prompt field is not
rejected: the handler responds 200 and the generation service is called
with the missing prompt rendered as the literal string "undefined". -/
theorem claim_C7_counterexample :
    (aiProcess ⟨none, some "watercolor", some "text", none⟩ none
        ⟨true, "", Except.ok "d", Except.ok "u", true, "OK", 200, [1], "id"⟩).resp.status = 200
    ∧ (aiProcess ⟨none, some "watercolor", some "text", none⟩ none
        ⟨true, "", Except.ok "d", Except.ok "u", true, "OK", 200, [1], "id"⟩).resp.status ≠ 400
    ∧ ExtCall.generate "undefined in watercolor style. Highly detailed and cinematic quality."
        ∈ (aiProcess ⟨none, some "watercolor", some "text", none⟩ none
        ⟨true, "", Except.ok "d", Except.ok "u", true, "OK", 200, [1], "id"⟩).calls := by
  decide

/-- C7 amended: the ai-process body validation never checks the prompt
field: a text-mode request with a missing prompt passes the 400
validation (which only inspects the mode/file/qr combination) and
generation proceeds with the composed prompt rendering the missing
prompt as the string "undefined". -/
theorem claim_C7_no_prompt_validation (body : AiBody) (file : Option IncomingFile)
    (w : World) (h1 : body.mode = some "text") (h2 : body.prompt = none) :
    (aiProcess body file w).resp.status ≠ 400
    ∧ ExtCall.generate (textFinalPrompt none body.style)
        ∈ (aiProcess body file w).calls := by
  have hres : resolveInput body file = ResolvedInput.noImage := by
    simp [resolveInput, h1]
  unfold aiProcess
  rw [hres, ← h2]
  unfold generateStage
  cases hg : w.generateOutcome with
  | error e => simp [catchResponse]
  | ok url =>
    unfold fetchAndPersist
    by_cases hf : w.fetchOk
    · simp [hf, catchResponse]
    · simp [hf, catchResponse]

/-- Witness for the amended C7 at a concrete promptless text request. -/
theorem claim_C7_witness :
    (aiProcess ⟨none, some "watercolor", some "text", none⟩ none
        ⟨true, "", Except.ok "d", Except.ok "u", true, "OK", 200, [1], "id"⟩).resp.status ≠ 400
    ∧ ExtCall.generate (textFinalPrompt none (some "watercolor"))
        ∈ (aiProcess ⟨none, some "watercolor", some "text", none⟩ none
        ⟨true, "", Except.ok "d", Except.ok "u", true, "OK", 200, [1], "id"⟩).calls :=
  claim_C7_no_prompt_validation ⟨none, some "watercolor", some "text", none⟩ none
    ⟨true, "", Except.ok "d", Except.ok "u", true, "OK", 200, [1], "id"⟩ rfl rfl

/-- Witness for C10 at a concrete empty registry and one-file store. -/
theorem claim_C10_witness :
    (mobileUploadRoute [] ["old.png"] "s9" (some ⟨"u3.jpg", "o3.jpg"⟩)).1
      = UploadResp.sessionNotFound
    ∧ (mobileUploadRoute [] ["old.png"] "s9" (some ⟨"u3.jpg", "o3.jpg"⟩)).2.1 = []
    ∧ (mobileUploadRoute [] ["old.png"] "s9" (some ⟨"u3.jpg", "o3.jpg"⟩)).2.2
        = "u3.jpg" :: ["old.png"]
    ∧ "u3.jpg" ∉ ["old.png"]
    ∧ "u3.jpg" ∈ (mobileUploadRoute [] ["old.png"] "s9" (some ⟨"u3.jpg", "o3.jpg"⟩)).2.2
    ∧ (mobileUploadRoute [] ["old.png"] "s9" (some ⟨"u3.jpg", "o3.jpg"⟩)).2.2.length
        = (["old.png"] : List String).length + 1 :=
  claim_C10_upload_persists_on_404 [] ["old.png"] "s9" ⟨"u3.jpg", "o3.jpg"⟩
    (by decide) (by decide)
